import Mathlib

/-!
Verification of the credential-cache middleware `src/middleware/auth.js` of
herald-webservice: the symmetric encrypt/decrypt wrappers, the upstream
authentication wrapper `auth`, the login entry point (`POST /auth`), and the
token passthrough / anonymous identity-context paths.

External collaborators (the node crypto library's cipher kernel and digest,
the record store `database/auth`, and the upstream auth providers) are not
part of the sources; they are modelled from the spec as stated in the doc
comment of each such definition.  Everything else is translated directly
from `src/middleware/auth.js`.
-/

set_option autoImplicit false

deriving instance DecidableEq for Except

namespace Herald

/-- Escape character used by the modelled cipher encoding. -/
def escChar : Char := '\\'

/-- Separator character used by the modelled cipher encoding. -/
def sepChar : Char := '|'

/-- Escape every occurrence of the escape and separator characters. -/
def esc : List Char → List Char
  | [] => []
  | c :: cs =>
    if c = escChar ∨ c = sepChar then escChar :: c :: esc cs
    else c :: esc cs

/-- Split an encoded list at the first unescaped separator, unescaping the
part before it; `none` when the input is malformed (no unescaped separator,
or a dangling escape). -/
def splitEsc : List Char → Option (List Char × List Char)
  | [] => none
  | [c] => if c = sepChar then some ([], []) else none
  | c :: d :: ds =>
    if c = escChar then (splitEsc ds).map fun p => (d :: p.1, p.2)
    else if c = sepChar then some ([], d :: ds)
    else (splitEsc (d :: ds)).map fun p => (c :: p.1, p.2)

/-- Modelled from the spec: `hash` wraps `crypto.createHash('md5')` (an
external library primitive, not part of the sources), a deterministic
one-way digest whose collisions are negligible for the values in use;
modelled as an injective tagging function. -/
def hash (value : String) : String := String.mk ('#' :: value.data)

/-- Modelled from the spec: the symmetric cipher kernel
(`crypto.createCipher(config.auth.cipher, key)` of the external crypto
library), deterministic per key, producing a ciphertext from which the
value is recoverable exactly under the same key; `none` models a thrown
exception. -/
def cipherCore (key value : String) : Option String :=
  some (String.mk (esc (hash key).data ++ sepChar :: value.data))

/-- Modelled from the spec: the symmetric decipher kernel
(`crypto.createDecipher(config.auth.cipher, key)` of the external crypto
library); `none` models the exception thrown on a wrong key or malformed
ciphertext. -/
def decipherCore (key value : String) : Option String :=
  match splitEsc value.data with
  | none => none
  | some p => if p.1 = (hash key).data then some (String.mk p.2) else none

/-- `encrypt` of `src/middleware/auth.js`: runs the cipher kernel and
returns the empty string instead of raising when it fails (the
`try/catch` of the source). -/
def encrypt (key value : String) : String := (cipherCore key value).getD ""

/-- `decrypt` of `src/middleware/auth.js`: runs the decipher kernel and
returns the empty string instead of raising when it fails (the
`try/catch` of the source). -/
def decrypt (key value : String) : String := (decipherCore key value).getD ""

/-- The persisted unit of `database/auth`, one per `(cardnum, platform)`
pair, with the fields written and read by `src/middleware/auth.js`. -/
structure AuthRecord where
  cardnum : String
  tokenHash : String
  tokenEncrypted : String
  passwordEncrypted : String
  passwordHash : String
  gpasswordEncrypted : String
  name : String
  schoolnum : String
  platform : String
  registered : Nat
  lastInvoked : Nat
  deriving DecidableEq

/-- Modelled from the spec: `find(filter, 1)` of the record store adapter
(`database/auth` is not among the sources) — first record matching an
equality filter. -/
def findRec (p : AuthRecord → Bool) (db : List AuthRecord) : Option AuthRecord :=
  db.find? p

/-- Modelled from the spec: `update(filter, patch)` of the record store
adapter — patch every record matching the filter. -/
def updateRec (p : AuthRecord → Bool) (patch : AuthRecord → AuthRecord)
    (db : List AuthRecord) : List AuthRecord :=
  db.map fun r => if p r then patch r else r

/-- Modelled from the spec: `remove(filter)` of the record store adapter. -/
def removeRec (p : AuthRecord → Bool) (db : List AuthRecord) : List AuthRecord :=
  db.filter fun r => ! p r

/-- Modelled from the spec: `insert(record)` of the record store adapter. -/
def insertRec (r : AuthRecord) (db : List AuthRecord) : List AuthRecord :=
  db ++ [r]

/-- The `{ cardnum, platform }` equality filter of the source. -/
def matchCardPlat (cardnum platform : String) (r : AuthRecord) : Bool :=
  r.cardnum == cardnum && r.platform == platform

/-- The `{ tokenHash }` equality filter of the source. -/
def matchTokenHash (th : String) (r : AuthRecord) : Bool :=
  r.tokenHash == th

/-- The test `/^22/.test(cardnum)` used on the login and passthrough paths. -/
def startsWith22 (cardnum : String) : Bool :=
  match cardnum.data with
  | '2' :: '2' :: _ => true
  | _ => false

/-- The test `/^22\d*(\d{6})$/.test(cardnum)` used by the `auth` wrapper:
the whole cardnum is `22` followed by digits, at least eight characters
in total. -/
def isSecondaryFull (cardnum : String) : Bool :=
  startsWith22 cardnum && cardnum.data.all Char.isDigit && decide (8 ≤ cardnum.data.length)

/-- The capture `RegExp.$1` of `/^22\d*(\d{6})$/`: with the greedy `\d*`,
the last six characters of the cardnum. -/
def lastSix (cardnum : String) : String :=
  String.mk (cardnum.data.drop (cardnum.data.length - 6))

/-- A thrown javascript value: a numeric status such as `401`/`405`, or a
message string. -/
inductive JsErr
  | code : Nat → JsErr
  | msg : String → JsErr
  deriving DecidableEq

/-- `method.toUpperCase()` (line 101), for the ASCII method names in use. -/
def upperCase (s : String) : String := String.mk (s.data.map Char.toUpper)

/-- The profile returned by the primary provider. -/
structure Profile where
  name : String
  schoolnum : String
  deriving DecidableEq

/-- A record of one invocation of an upstream provider. -/
inductive ProviderCall
  | secondary : String → String → ProviderCall
  | primary : String → String → ProviderCall
  deriving DecidableEq

/-- Modelled from the spec: the two upstream auth providers
(`./auth-provider/myold` and `./auth-provider/graduate` are not among the
sources); each validates credentials and either returns (a profile for the
primary one) or throws — `401` for a credential rejection. -/
structure Providers where
  primary : String → String → Except JsErr Profile
  secondary : String → String → Except JsErr Unit

/-- The part of `ctx.user` that the `auth` wrapper's catch clause reads:
`ctx.user.isLogin` and `ctx.user.token` (the exposed token hash). -/
structure CtxUser where
  isLogin : Bool
  token : String

/-- The provider part of the `auth` wrapper (lines 79–82): when the cardnum
matches the full secondary pattern, first invoke the graduate provider with
the captured sub-identity and the secondary password, and only on its
success the primary provider; otherwise only the primary provider.  Also
returns the list of provider invocations made. -/
def providerRun (P : Providers) (cardnum password gpassword : String) :
    List ProviderCall × Except JsErr Profile :=
  if isSecondaryFull cardnum then
    let sub := lastSix cardnum
    match P.secondary sub gpassword with
    | .error e => ([.secondary sub gpassword], .error e)
    | .ok _ =>
      ([.secondary sub gpassword, .primary cardnum password], P.primary cardnum password)
  else ([.primary cardnum password], P.primary cardnum password)

/-- Result of the `auth` wrapper: the store after the call, the provider
invocations made, and the outcome. -/
structure AuthOut where
  db : List AuthRecord
  calls : List ProviderCall
  result : Except JsErr Profile
  deriving DecidableEq

/-- The `auth` wrapper of `src/middleware/auth.js` (lines 77–92): run the
providers; on a thrown `401`, when the request context already carries an
authenticated user, remove that user's record (keyed by its token hash)
before rethrowing. -/
def auth (P : Providers) (user : Option CtxUser) (db : List AuthRecord)
    (cardnum password gpassword : String) : AuthOut :=
  let pr := providerRun P cardnum password gpassword
  match pr.2 with
  | .ok prof => ⟨db, pr.1, .ok prof⟩
  | .error e =>
    let db' :=
      if e = .code 401 then
        match user with
        | some u => if u.isLogin then removeRec (matchTokenHash u.token) db else db
        | none => db
      else db
    ⟨db', pr.1, .error e⟩

/-- Result of the login entry point: the store after the request, the
provider invocations made, and the response body (the token) or the thrown
value. -/
structure LoginOut where
  db : List AuthRecord
  calls : List ProviderCall
  result : Except JsErr String
  deriving DecidableEq

/-- `gpassword = gpassword || password` (line 109): the secondary password
defaults to the password when absent or empty. -/
def effGpassword (gpassword : Option String) (password : String) : String :=
  match gpassword with
  | none => password
  | some g => if g = "" then password else g

/-- The message thrown when `platform` is missing (line 112). -/
def platformMissingMsg : String := "缺少参数 platform: 必须指定平台名"

/-- The fresh-issuance tail of the login entry point (lines 154–188): no
usable existing record, so validate upstream, mint `freshToken`, derive the
four secret fields and insert a new record with
`registered = lastInvoked = now`.  At this point `ctx.user` is not set, so
`auth` is called with no user context. -/
def freshLogin (P : Providers) (db : List AuthRecord)
    (cardnum password gpassword platform freshToken : String) (now : Nat) : LoginOut :=
  let a := auth P none db cardnum password gpassword
  match a.result with
  | .error e => ⟨a.db, a.calls, .error e⟩
  | .ok prof =>
    let token := freshToken
    let tokenHash := hash token
    let passwordHash := hash password
    let tokenEncrypted := encrypt password token
    let passwordEncrypted := encrypt token password
    let gpasswordEncrypted := if startsWith22 cardnum then encrypt token gpassword else ""
    ⟨insertRec
        { cardnum := cardnum
          tokenHash := tokenHash
          tokenEncrypted := tokenEncrypted
          passwordEncrypted := passwordEncrypted
          passwordHash := passwordHash
          gpasswordEncrypted := gpasswordEncrypted
          name := prof.name
          schoolnum := prof.schoolnum
          platform := platform
          registered := now
          lastInvoked := now } a.db,
     a.calls, .ok token⟩

/-- The `POST /auth` login entry point (lines 98–188): reject non-POST with
`405` and a missing/empty `platform` with a message; look up the record for
`(cardnum, platform)`; when the presented password decrypts the stored
token, either answer from the cache or — when the password hash differs, or
for a `22`-prefixed cardnum the secondary password differs — re-validate
upstream and overwrite the four secret fields; otherwise fall through to
fresh issuance. -/
def login (P : Providers) (db : List AuthRecord) (method cardnum password : String)
    (gpasswordParam platformParam : Option String)
    (freshToken : String) (now : Nat) : LoginOut :=
  if upperCase method ≠ "POST" then ⟨db, [], .error (.code 405)⟩
  else
    let gpassword := effGpassword gpasswordParam password
    match platformParam with
    | none => ⟨db, [], .error (.msg platformMissingMsg)⟩
    | some platform =>
      if platform = "" then ⟨db, [], .error (.msg platformMissingMsg)⟩
      else
        match findRec (matchCardPlat cardnum platform) db with
        | some existing =>
          let token := decrypt password existing.tokenEncrypted
          if token != "" then
            if existing.passwordHash != hash password
                || (startsWith22 cardnum && gpassword != decrypt token existing.gpasswordEncrypted) then
              let a := auth P none db cardnum password gpassword
              match a.result with
              | .error e => ⟨a.db, a.calls, .error e⟩
              | .ok _ =>
                let passwordEncrypted := encrypt token password
                let gpasswordEncrypted :=
                  if startsWith22 cardnum then encrypt token gpassword else ""
                let tokenEncrypted := encrypt password token
                let passwordHash := hash password
                ⟨updateRec (matchCardPlat cardnum platform)
                    (fun r =>
                      { r with
                        passwordEncrypted := passwordEncrypted
                        gpasswordEncrypted := gpasswordEncrypted
                        tokenEncrypted := tokenEncrypted
                        passwordHash := passwordHash }) a.db,
                 a.calls, .ok token⟩
            else ⟨db, [], .ok token⟩
          else freshLogin P db cardnum password gpassword platform freshToken now
        | none => freshLogin P db cardnum password gpassword platform freshToken now

/-- The `ctx.user` object handed to downstream middleware.  `isLogin` is a
plain boolean on both variants; `token` is absent (`undefined`, read
without raising) on the anonymous variant; every other property is guarded
by a getter on the anonymous variant, so reading it yields a thrown value,
modelled by `Except`. -/
structure UserObj where
  isLogin : Bool
  token : Option String
  encrypt : Except JsErr (String → String)
  decrypt : Except JsErr (String → String)
  identity : Except JsErr String
  cardnum : Except JsErr String
  password : Except JsErr String
  gpassword : Except JsErr String
  name : Except JsErr String
  schoolnum : Except JsErr String
  platform : Except JsErr String

/-- The bound re-authentication capability `ctx.useAuthCookie` (line 216):
`auth` with these captured credentials. -/
structure BoundAuth where
  cardnum : String
  password : String
  gpassword : String
  deriving DecidableEq

/-- The anonymous `ctx.user` (lines 234–246): `isLogin` is `false` and every
guarded property throws `401` on access. -/
def anonymousUser : UserObj :=
  { isLogin := false
    token := none
    encrypt := .error (.code 401)
    decrypt := .error (.code 401)
    identity := .error (.code 401)
    cardnum := .error (.code 401)
    password := .error (.code 401)
    gpassword := .error (.code 401)
    name := .error (.code 401)
    schoolnum := .error (.code 401)
    platform := .error (.code 401) }

/-- Result of the passthrough path: the store after the request, the
exposed `ctx.user`, and `ctx.useAuthCookie` (which for the anonymous
variant throws `401` when invoked). -/
structure PassOut where
  db : List AuthRecord
  user : UserObj
  useAuthCookie : Except JsErr BoundAuth

/-- The passthrough path of the middleware (lines 189–251): a request that
is not `/auth` with a truthy `token` header is resolved by the hash of the
token; on a hit, `lastInvoked` is updated and the decrypted identity is
exposed; otherwise the anonymous context is exposed. -/
def passthrough (db : List AuthRecord) (headerToken : Option String) (now : Nat) : PassOut :=
  match headerToken with
  | some token =>
    if token = "" then ⟨db, anonymousUser, .error (.code 401)⟩
    else
      let tokenHash := hash token
      match findRec (matchTokenHash tokenHash) db with
      | some record =>
        let db2 := updateRec (matchTokenHash tokenHash)
          (fun r => { r with lastInvoked := now }) db
        let password := decrypt token record.passwordEncrypted
        let gpassword :=
          if startsWith22 record.cardnum then decrypt token record.gpasswordEncrypted else ""
        let identity := hash (record.cardnum ++ record.name)
        ⟨db2,
         { isLogin := true
           token := some tokenHash
           encrypt := .ok (encrypt token)
           decrypt := .ok (decrypt token)
           identity := .ok identity
           cardnum := .ok record.cardnum
           password := .ok password
           gpassword := .ok gpassword
           name := .ok record.name
           schoolnum := .ok record.schoolnum
           platform := .ok record.platform },
         .ok ⟨record.cardnum, password, gpassword⟩⟩
      | none => ⟨db, anonymousUser, .error (.code 401)⟩
  | none => ⟨db, anonymousUser, .error (.code 401)⟩

/-- Sample upstream providers that accept every credential. -/
def okProviders : Providers :=
  { primary := fun _ _ => .ok ⟨"nm", "sn"⟩
    secondary := fun _ _ => .ok () }

/-- Sample upstream providers that reject every credential with `401`. -/
def rejectProviders : Providers :=
  { primary := fun _ _ => .error (.code 401)
    secondary := fun _ _ => .error (.code 401) }

/-- A sample record as produced by a first login of cardnum `2201` on
platform `app` with password `p1`, secondary password `g1` and token `t0`. -/
def sampleRecord : AuthRecord :=
  { cardnum := "2201"
    tokenHash := hash "t0"
    tokenEncrypted := encrypt "p1" "t0"
    passwordEncrypted := encrypt "t0" "p1"
    passwordHash := hash "p1"
    gpasswordEncrypted := encrypt "t0" "g1"
    name := "nm"
    schoolnum := "sn"
    platform := "app"
    registered := 1
    lastInvoked := 1 }

/-- A first login of the `22`-prefixed but seven-character cardnum
`2201234` against accepting providers. -/
def shortCardFirst : LoginOut :=
  login okProviders [] "POST" "2201234" "p1" (some "g1") (some "app") "t1" 5

/-- A second login of `2201234` with a changed secondary password, on the
store left by `shortCardFirst`. -/
def shortCardSecond : LoginOut :=
  login okProviders shortCardFirst.db "POST" "2201234" "p1" (some "g2") (some "app") "t2" 6

theorem hash_injective : Function.Injective hash := by
  intro a b h
  have hd : ('#' :: a.data) = ('#' :: b.data) := congrArg String.data h
  have hdd : a.data = b.data := by simpa using hd
  exact String.ext hdd

theorem splitEsc_cons_cons (c d : Char) (ds : List Char) :
    splitEsc (c :: d :: ds) =
      if c = escChar then (splitEsc ds).map fun p => (d :: p.1, p.2)
      else if c = sepChar then some ([], d :: ds)
      else (splitEsc (d :: ds)).map fun p => (c :: p.1, p.2) := by
  rfl

theorem splitEsc_sep (b : List Char) : splitEsc (sepChar :: b) = some ([], b) := by
  cases b with
  | nil => rfl
  | cons d ds =>
    rw [splitEsc_cons_cons]
    simp [escChar, sepChar]

theorem splitEsc_esc (a b : List Char) :
    splitEsc (esc a ++ sepChar :: b) = some (a, b) := by
  induction a with
  | nil => simpa [esc] using splitEsc_sep b
  | cons c cs ih =>
    by_cases hc : c = escChar ∨ c = sepChar
    · have : esc (c :: cs) = escChar :: c :: esc cs := by simp [esc, hc]
      rw [this, List.cons_append, List.cons_append, splitEsc_cons_cons]
      simp [ih]
    · push_neg at hc
      have : esc (c :: cs) = c :: esc cs := by simp [esc, hc.1, hc.2]
      rw [this]
      cases hcs : esc cs ++ sepChar :: b with
      | nil => exact absurd (List.append_eq_nil.mp hcs).2 (by simp)
      | cons e es =>
        rw [List.cons_append, hcs, splitEsc_cons_cons, ← hcs]
        simp [hc.1, hc.2, ih]

theorem decipherCore_cipherCore (key value : String) :
    decipherCore key (String.mk (esc (hash key).data ++ sepChar :: value.data))
      = some value := by
  simp [decipherCore, splitEsc_esc]

/-- Round trip of the wrapped primitives. -/
theorem decrypt_encrypt (key value : String) :
    decrypt key (encrypt key value) = value := by
  simp [encrypt, decrypt, cipherCore, decipherCore_cipherCore]

/-- A ciphertext produced under one key decrypts to the empty string under
any other key. -/
theorem decrypt_wrong_key (key key' value : String) (h : key' ≠ key) :
    decrypt key' (encrypt key value) = "" := by
  have hne : (hash key).data ≠ (hash key').data := by
    intro hd
    exact h (hash_injective (String.ext hd)).symm
  simp [encrypt, decrypt, cipherCore, decipherCore, splitEsc_esc, hne]

/-- An encryption is never the empty string (it contains the separator). -/
theorem encrypt_ne_empty (key value : String) : encrypt key value ≠ "" := by
  intro h
  have hd : (esc (hash key).data ++ sepChar :: value.data) = ([] : List Char) :=
    congrArg String.data h
  exact absurd (List.append_eq_nil.mp hd).2 (by simp)

/-- C6: for every key and every value, `decrypt(key, encrypt(key, value))`
is `value`; in particular the password/token double encryption of the
middleware is a round-trip pair under the same key. -/
theorem encrypt_decrypt_roundtrip (key value : String) :
    decrypt key (encrypt key value) = value :=
  decrypt_encrypt key value

/-- C7: `decrypt` and `encrypt` are total (the `try/catch` of the source
never lets the kernel's exception escape): whenever the decipher kernel
fails, `decrypt` returns the empty string, and each wrapper returns either
the empty string or a value the kernel produced. -/
theorem decrypt_fail_to_empty (key value : String) :
    (decipherCore key value = none → decrypt key value = "") ∧
    (decrypt key value = "" ∨ decipherCore key value = some (decrypt key value)) ∧
    (encrypt key value = "" ∨ cipherCore key value = some (encrypt key value)) := by
  refine ⟨fun h => by simp [decrypt, h], ?_, ?_⟩
  · cases h : decipherCore key value with
    | none => exact Or.inl (by simp [decrypt, h])
    | some m => exact Or.inr (by simp [decrypt, h])
  · cases h : cipherCore key value with
    | none => exact Or.inl (by simp [encrypt, h])
    | some m => exact Or.inr (by simp [encrypt, h])

/-- Witness for C7 at a concrete malformed ciphertext. -/
theorem decrypt_fail_to_empty_witness :
    decipherCore "k" "zz" = none ∧ decrypt "k" "zz" = "" :=
  ⟨by decide, (decrypt_fail_to_empty "k" "zz").1 (by decide)⟩

/-- C2: whenever the providers reject the credentials with `401`, the
`auth` wrapper rethrows `401` to its caller, and it removes the record of
the authenticated identity carried by the request context — keyed by that
identity's token hash — exactly when the context carries one
(`ctx.user.isLogin`), i.e. when the call refreshes an existing
authenticated identity. -/
theorem auth_unauthorized_propagates (P : Providers) (user : Option CtxUser)
    (db : List AuthRecord) (cardnum password gpassword : String)
    (h : (providerRun P cardnum password gpassword).2 = .error (.code 401)) :
    (auth P user db cardnum password gpassword).result = .error (.code 401) ∧
    (auth P user db cardnum password gpassword).db =
      (match user with
       | some u => if u.isLogin then removeRec (matchTokenHash u.token) db else db
       | none => db) := by
  constructor <;> simp [auth, h]

/-- Witness for C2: rejected refresh of an authenticated identity deletes
that identity's record and rethrows `401`; the very same rejection with no
authenticated context leaves the store untouched. -/
theorem auth_unauthorized_propagates_witness :
    (providerRun rejectProviders "100" "p" "g").2 = .error (.code 401) ∧
    (auth rejectProviders (some ⟨true, hash "t0"⟩) [sampleRecord] "100" "p" "g").result
      = .error (.code 401) ∧
    (auth rejectProviders (some ⟨true, hash "t0"⟩) [sampleRecord] "100" "p" "g").db
      = removeRec (matchTokenHash (hash "t0")) [sampleRecord] ∧
    (auth rejectProviders none [sampleRecord] "100" "p" "g").db = [sampleRecord] := by
  refine ⟨by decide, ?_, ?_, ?_⟩
  · exact (auth_unauthorized_propagates rejectProviders (some ⟨true, hash "t0"⟩)
      [sampleRecord] "100" "p" "g" (by decide)).1
  · exact (auth_unauthorized_propagates rejectProviders (some ⟨true, hash "t0"⟩)
      [sampleRecord] "100" "p" "g" (by decide)).2
  · exact (auth_unauthorized_propagates rejectProviders none
      [sampleRecord] "100" "p" "g" (by decide)).2

/-- C3: a login for a `(cardnum, platform)` pair with an existing record
whose stored token the presented password decrypts, whose password hash
matches, and (for `22`-prefixed cardnums) whose stored secondary password
matches the presented one, answers with the stored token without invoking
any upstream provider and without touching the store. -/
theorem login_cached_skips_upstream
    (P : Providers) (db : List AuthRecord) (method cardnum password : String)
    (gpasswordParam : Option String) (platform freshToken : String) (now : Nat)
    (r : AuthRecord)
    (hm : upperCase method = "POST")
    (hpne : platform ≠ "")
    (hfind : findRec (matchCardPlat cardnum platform) db = some r)
    (ht : decrypt password r.tokenEncrypted ≠ "")
    (hhash : r.passwordHash = hash password)
    (hgp : startsWith22 cardnum = true →
      effGpassword gpasswordParam password
        = decrypt (decrypt password r.tokenEncrypted) r.gpasswordEncrypted) :
    login P db method cardnum password gpasswordParam (some platform) freshToken now
      = ⟨db, [], .ok (decrypt password r.tokenEncrypted)⟩ := by
  have hcond : (r.passwordHash != hash password
      || (startsWith22 cardnum
          && effGpassword gpasswordParam password
              != decrypt (decrypt password r.tokenEncrypted) r.gpasswordEncrypted)) = false := by
    cases h22 : startsWith22 cardnum with
    | false => simp [hhash, h22]
    | true => simp [hhash, h22, hgp h22]
  simp [login, hm, hpne, hfind, ht, hcond]

/-- Witness for C3: a repeat login with the unchanged credentials of
`sampleRecord` returns the original token `t0`, an empty provider call
list and an unchanged store. -/
theorem login_cached_skips_upstream_witness :
    findRec (matchCardPlat "2201" "app") [sampleRecord] = some sampleRecord ∧
    decrypt "p1" sampleRecord.tokenEncrypted ≠ "" ∧
    sampleRecord.passwordHash = hash "p1" ∧
    login okProviders [sampleRecord] "POST" "2201" "p1" (some "g1") (some "app") "tX" 9
      = ⟨[sampleRecord], [], .ok (decrypt "p1" sampleRecord.tokenEncrypted)⟩ :=
  ⟨by decide, by decide, by decide,
    login_cached_skips_upstream okProviders [sampleRecord] "POST" "2201" "p1"
      (some "g1") "app" "tX" 9 sampleRecord (by decide) (by decide) (by decide)
      (by decide) (by decide) (fun _ => by decide)⟩

/-- C4: a login for a `(cardnum, platform)` pair with no existing record,
whose credentials the upstream accepts, appends exactly one new record —
`registered` and `lastInvoked` both `now`, `tokenHash`/`passwordHash` the
digests of the fresh token and the password — and answers with the fresh
token, which decrypts the stored `tokenEncrypted` under the password and
whose stored `passwordEncrypted` decrypts to the password under the
token. -/
theorem login_fresh_inserts
    (P : Providers) (db : List AuthRecord) (method cardnum password : String)
    (gpasswordParam : Option String) (platform freshToken : String) (now : Nat)
    (nm sn : String)
    (hm : upperCase method = "POST")
    (hpne : platform ≠ "")
    (hfind : findRec (matchCardPlat cardnum platform) db = none)
    (hok : (providerRun P cardnum password (effGpassword gpasswordParam password)).2
      = .ok ⟨nm, sn⟩) :
    login P db method cardnum password gpasswordParam (some platform) freshToken now
      = ⟨db ++ [{ cardnum := cardnum
                  tokenHash := hash freshToken
                  tokenEncrypted := encrypt password freshToken
                  passwordEncrypted := encrypt freshToken password
                  passwordHash := hash password
                  gpasswordEncrypted :=
                    if startsWith22 cardnum then
                      encrypt freshToken (effGpassword gpasswordParam password)
                    else ""
                  name := nm
                  schoolnum := sn
                  platform := platform
                  registered := now
                  lastInvoked := now }],
         (providerRun P cardnum password (effGpassword gpasswordParam password)).1,
         .ok freshToken⟩ ∧
    decrypt password (encrypt password freshToken) = freshToken ∧
    decrypt freshToken (encrypt freshToken password) = password := by
  refine ⟨?_, decrypt_encrypt _ _, decrypt_encrypt _ _⟩
  simp [login, hm, hpne, hfind, freshLogin, auth, hok, insertRec]

/-- Witness for C4: a first login of cardnum `100` on an empty store
against accepting providers inserts the expected single record and returns
the fresh token `t9`. -/
theorem login_fresh_inserts_witness :
    findRec (matchCardPlat "100" "app") [] = none ∧
    (providerRun okProviders "100" "p9" (effGpassword none "p9")).2 = .ok ⟨"nm", "sn"⟩ ∧
    login okProviders [] "POST" "100" "p9" none (some "app") "t9" 3
      = ⟨[{ cardnum := "100"
            tokenHash := hash "t9"
            tokenEncrypted := encrypt "p9" "t9"
            passwordEncrypted := encrypt "t9" "p9"
            passwordHash := hash "p9"
            gpasswordEncrypted := if startsWith22 "100" then encrypt "t9" (effGpassword none "p9") else ""
            name := "nm"
            schoolnum := "sn"
            platform := "app"
            registered := 3
            lastInvoked := 3 }],
         (providerRun okProviders "100" "p9" (effGpassword none "p9")).1,
         .ok "t9"⟩ :=
  ⟨by decide, by decide,
    (login_fresh_inserts okProviders [] "POST" "100" "p9" none "app" "t9" 3 "nm" "sn"
      (by decide) (by decide) (by decide) (by decide)).1⟩

/-- C1: a login for a `(cardnum, platform)` pair with an existing record
whose stored token the presented password decrypts, but whose password
hash differs — or, for `22`-prefixed cardnums, whose stored secondary
password differs from the presented one — re-validates upstream; on
acceptance it answers with the same stored token and persists, by an
update keyed on `(cardnum, platform)`, the four secret fields recomputed
from the new credentials (`gpasswordEncrypted` cleared to empty for
non-`22` cardnums). -/
theorem login_rotation_updates
    (P : Providers) (db : List AuthRecord) (method cardnum password : String)
    (gpasswordParam : Option String) (platform freshToken : String) (now : Nat)
    (r : AuthRecord) (nm sn : String)
    (hm : upperCase method = "POST")
    (hpne : platform ≠ "")
    (hfind : findRec (matchCardPlat cardnum platform) db = some r)
    (ht : decrypt password r.tokenEncrypted ≠ "")
    (hdiff : r.passwordHash ≠ hash password ∨
      (startsWith22 cardnum = true ∧
        effGpassword gpasswordParam password
          ≠ decrypt (decrypt password r.tokenEncrypted) r.gpasswordEncrypted))
    (hok : (providerRun P cardnum password (effGpassword gpasswordParam password)).2
      = .ok ⟨nm, sn⟩) :
    login P db method cardnum password gpasswordParam (some platform) freshToken now
      = ⟨updateRec (matchCardPlat cardnum platform)
            (fun x =>
              { x with
                passwordEncrypted := encrypt (decrypt password r.tokenEncrypted) password
                gpasswordEncrypted :=
                  if startsWith22 cardnum then
                    encrypt (decrypt password r.tokenEncrypted)
                      (effGpassword gpasswordParam password)
                  else ""
                tokenEncrypted := encrypt password (decrypt password r.tokenEncrypted)
                passwordHash := hash password }) db,
         (providerRun P cardnum password (effGpassword gpasswordParam password)).1,
         .ok (decrypt password r.tokenEncrypted)⟩ := by
  have hcond : (r.passwordHash != hash password
      || (startsWith22 cardnum
          && effGpassword gpasswordParam password
              != decrypt (decrypt password r.tokenEncrypted) r.gpasswordEncrypted)) = true := by
    rcases hdiff with h | ⟨h1, h2⟩
    · simp [bne_iff_ne, h]
    · simp [bne_iff_ne, h1, h2]
  simp [login, hm, hpne, hfind, ht, hcond, auth, hok]

/-- Witness for C1: a repeat login with the password of `sampleRecord` but
a changed secondary password, accepted upstream, keeps token `t0` and
overwrites the four secret fields. -/
theorem login_rotation_updates_witness :
    findRec (matchCardPlat "2201" "app") [sampleRecord] = some sampleRecord ∧
    decrypt "p1" sampleRecord.tokenEncrypted ≠ "" ∧
    startsWith22 "2201" = true ∧
    effGpassword (some "g2") "p1"
      ≠ decrypt (decrypt "p1" sampleRecord.tokenEncrypted) sampleRecord.gpasswordEncrypted ∧
    login okProviders [sampleRecord] "POST" "2201" "p1" (some "g2") (some "app") "tX" 9
      = ⟨updateRec (matchCardPlat "2201" "app")
            (fun x =>
              { x with
                passwordEncrypted := encrypt (decrypt "p1" sampleRecord.tokenEncrypted) "p1"
                gpasswordEncrypted :=
                  if startsWith22 "2201" then
                    encrypt (decrypt "p1" sampleRecord.tokenEncrypted)
                      (effGpassword (some "g2") "p1")
                  else ""
                tokenEncrypted := encrypt "p1" (decrypt "p1" sampleRecord.tokenEncrypted)
                passwordHash := hash "p1" }) [sampleRecord],
         (providerRun okProviders "2201" "p1" (effGpassword (some "g2") "p1")).1,
         .ok (decrypt "p1" sampleRecord.tokenEncrypted)⟩ :=
  ⟨by decide, by decide, by decide, by decide,
    login_rotation_updates okProviders [sampleRecord] "POST" "2201" "p1" (some "g2")
      "app" "tX" 9 sampleRecord "nm" "sn" (by decide) (by decide) (by decide) (by decide)
      (Or.inr ⟨by decide, by decide⟩) (by decide)⟩

/-- C5: a passthrough request bearing a token whose hash matches a stored
record updates exactly that record's `lastInvoked` to `now`, leaves every
other field unchanged, and exposes an identity context with
`isLogin = true` whose `password` is `decrypt(token, passwordEncrypted)` —
the password under which the record's secrets were last encrypted. -/
theorem passthrough_hit_updates
    (db : List AuthRecord) (tk : String) (now : Nat) (r : AuthRecord) (pw : String)
    (htk : tk ≠ "")
    (hfind : findRec (matchTokenHash (hash tk)) db = some r)
    (hpe : r.passwordEncrypted = encrypt tk pw) :
    (passthrough db (some tk) now).db
        = updateRec (matchTokenHash (hash tk)) (fun x => { x with lastInvoked := now }) db ∧
    (passthrough db (some tk) now).user.isLogin = true ∧
    (passthrough db (some tk) now).user.password = .ok (decrypt tk r.passwordEncrypted) ∧
    (passthrough db (some tk) now).user.password = .ok pw := by
  have h3 : decrypt tk r.passwordEncrypted = pw := by rw [hpe]; exact decrypt_encrypt _ _
  refine ⟨?_, ?_, ?_, ?_⟩ <;> simp [passthrough, htk, hfind, h3]

/-- Witness for C5: a passthrough with token `t0` against a store holding
`sampleRecord` stamps `lastInvoked` and recovers password `p1`. -/
theorem passthrough_hit_updates_witness :
    findRec (matchTokenHash (hash "t0")) [sampleRecord] = some sampleRecord ∧
    sampleRecord.passwordEncrypted = encrypt "t0" "p1" ∧
    (passthrough [sampleRecord] (some "t0") 7).db
        = updateRec (matchTokenHash (hash "t0"))
            (fun x => { x with lastInvoked := 7 }) [sampleRecord] ∧
    (passthrough [sampleRecord] (some "t0") 7).user.isLogin = true ∧
    (passthrough [sampleRecord] (some "t0") 7).user.password = .ok "p1" :=
  ⟨by decide, by decide,
    (passthrough_hit_updates [sampleRecord] "t0" 7 sampleRecord "p1"
      (by decide) (by decide) (by decide)).1,
    (passthrough_hit_updates [sampleRecord] "t0" 7 sampleRecord "p1"
      (by decide) (by decide) (by decide)).2.1,
    (passthrough_hit_updates [sampleRecord] "t0" 7 sampleRecord "p1"
      (by decide) (by decide) (by decide)).2.2.2⟩

/-- C8: a request with no token header, an empty one, or a token whose
hash matches no stored record is handled exactly like a token-less request
and exposes the anonymous context: `isLogin` is a plain `false`, every
guarded identity property reads as a thrown `401`, and invoking
`useAuthCookie` throws `401`. -/
theorem anonymous_context
    (db : List AuthRecord) (now : Nat) (tkOpt : Option String)
    (h : ∀ tk, tkOpt = some tk → tk = "" ∨ findRec (matchTokenHash (hash tk)) db = none) :
    passthrough db tkOpt now = passthrough db none now ∧
    passthrough db none now = ⟨db, anonymousUser, .error (.code 401)⟩ ∧
    anonymousUser.isLogin = false ∧
    anonymousUser.encrypt = .error (.code 401) ∧
    anonymousUser.decrypt = .error (.code 401) ∧
    anonymousUser.identity = .error (.code 401) ∧
    anonymousUser.cardnum = .error (.code 401) ∧
    anonymousUser.password = .error (.code 401) ∧
    anonymousUser.gpassword = .error (.code 401) ∧
    anonymousUser.name = .error (.code 401) ∧
    anonymousUser.schoolnum = .error (.code 401) ∧
    anonymousUser.platform = .error (.code 401) ∧
    (passthrough db tkOpt now).useAuthCookie = .error (.code 401) := by
  have h1 : passthrough db tkOpt now = passthrough db none now := by
    cases tkOpt with
    | none => rfl
    | some tk =>
      rcases h tk rfl with h0 | h0
      · subst h0; simp [passthrough]
      · by_cases he : tk = "" <;> simp [passthrough, he, h0]
  refine ⟨h1, rfl, rfl, rfl, rfl, rfl, rfl, rfl, rfl, rfl, rfl, rfl, ?_⟩
  rw [h1]; rfl

/-- Witness for C8: an unrecognized token against a store holding
`sampleRecord` yields the very same outcome as no token at all. -/
theorem anonymous_context_witness :
    passthrough [sampleRecord] (some "bad") 4 = passthrough [sampleRecord] none 4 ∧
    (passthrough [sampleRecord] none 4).user = anonymousUser :=
  ⟨(anonymous_context [sampleRecord] 4 (some "bad")
      (fun tk htk => by cases htk; exact Or.inr (by decide))).1, rfl⟩

/-- C9: for a cardnum matching the full secondary pattern
`/^22\d*(\d{6})$/`, the `auth` wrapper invokes the graduate provider first,
with the captured last six digits and the secondary password, and the
primary provider only on its success; and a first login of such a cardnum
stores `gpasswordEncrypted = encrypt(token, secondaryPassword)`, which is
non-empty and decrypts back to the presented secondary password under the
token. -/
theorem secondary_provider_first
    (P : Providers) (db : List AuthRecord)
    (cardnum password gpassword platform freshToken : String) (now : Nat)
    (e : JsErr) (nm sn : String)
    (h22 : isSecondaryFull cardnum = true)
    (hg : gpassword ≠ "") :
    (P.secondary (lastSix cardnum) gpassword = .error e →
      providerRun P cardnum password gpassword
        = ([.secondary (lastSix cardnum) gpassword], .error e)) ∧
    (P.secondary (lastSix cardnum) gpassword = .ok () →
      providerRun P cardnum password gpassword
        = ([.secondary (lastSix cardnum) gpassword, .primary cardnum password],
           P.primary cardnum password)) ∧
    (platform ≠ "" →
     findRec (matchCardPlat cardnum platform) db = none →
     (providerRun P cardnum password gpassword).2 = .ok ⟨nm, sn⟩ →
     (login P db "POST" cardnum password (some gpassword) (some platform) freshToken now).db
        = db ++ [{ cardnum := cardnum
                   tokenHash := hash freshToken
                   tokenEncrypted := encrypt password freshToken
                   passwordEncrypted := encrypt freshToken password
                   passwordHash := hash password
                   gpasswordEncrypted := encrypt freshToken gpassword
                   name := nm
                   schoolnum := sn
                   platform := platform
                   registered := now
                   lastInvoked := now }] ∧
     encrypt freshToken gpassword ≠ "" ∧
     decrypt freshToken (encrypt freshToken gpassword) = gpassword) := by
  have h22' : startsWith22 cardnum = true := by
    have h := h22
    simp only [isSecondaryFull, Bool.and_eq_true] at h
    exact h.1.1
  have heff : effGpassword (some gpassword) password = gpassword := by
    simp [effGpassword, hg]
  have hm : upperCase "POST" = "POST" := by decide
  refine ⟨fun he => by simp [providerRun, h22, he],
          fun he => by simp [providerRun, h22, he], ?_⟩
  intro hpne hfind hok
  refine ⟨?_, encrypt_ne_empty _ _, decrypt_encrypt _ _⟩
  simp [login, hm, hpne, hfind, freshLogin, auth, heff, hok, insertRec, h22']

/-- Witness for C9: a first login of `22012345` against accepting
providers calls graduate (`012345`) then primary and stores a non-empty
`gpasswordEncrypted` that decrypts to `g1`; against rejecting providers
only the graduate provider is reached. -/
theorem secondary_provider_first_witness :
    providerRun okProviders "22012345" "p1" "g1"
      = ([.secondary "012345" "g1", .primary "22012345" "p1"],
         okProviders.primary "22012345" "p1") ∧
    providerRun rejectProviders "22012345" "p1" "g1"
      = ([.secondary "012345" "g1"], .error (.code 401)) ∧
    (login okProviders [] "POST" "22012345" "p1" (some "g1") (some "app") "t1" 5).db
      = [{ cardnum := "22012345"
           tokenHash := hash "t1"
           tokenEncrypted := encrypt "p1" "t1"
           passwordEncrypted := encrypt "t1" "p1"
           passwordHash := hash "p1"
           gpasswordEncrypted := encrypt "t1" "g1"
           name := "nm"
           schoolnum := "sn"
           platform := "app"
           registered := 5
           lastInvoked := 5 }] ∧
    encrypt "t1" "g1" ≠ "" ∧
    decrypt "t1" (encrypt "t1" "g1") = "g1" := by
  have h := secondary_provider_first okProviders [] "22012345" "p1" "g1" "app" "t1" 5
    (.code 401) "nm" "sn" (by decide) (by decide)
  have hr := secondary_provider_first rejectProviders [] "22012345" "p1" "g1" "app" "t1" 5
    (.code 401) "nm" "sn" (by decide) (by decide)
  have h3 := h.2.2 (by decide) (by decide) (by decide)
  exact ⟨h.2.1 (by decide), hr.1 (by decide), by simpa using h3.1, h3.2.1, h3.2.2⟩

/-- C10: the wrapper's secondary test `/^22\d*(\d{6})$/` and the storage
paths' test `/^22/` disagree: for the seven-character cardnum `2201234`
only the latter holds, so a first login stores a non-empty
`gpasswordEncrypted` although the graduate provider is never invoked, and
a re-login with a changed secondary password compares it and goes back
upstream — again without ever invoking the graduate provider — while
keeping the original token. -/
theorem secondary_tests_disagree :
    startsWith22 "2201234" = true ∧
    isSecondaryFull "2201234" = false ∧
    shortCardFirst.calls = [.primary "2201234" "p1"] ∧
    shortCardFirst.db.map AuthRecord.gpasswordEncrypted = [encrypt "t1" "g1"] ∧
    encrypt "t1" "g1" ≠ "" ∧
    shortCardSecond.calls = [.primary "2201234" "p1"] ∧
    shortCardSecond.result = .ok "t1" := by
  refine ⟨by decide, by decide, by decide, by decide, encrypt_ne_empty _ _, by decide, by decide⟩

end Herald
